import Mathlib

/-!
Shallow embedding of `src/Modulos/requisicoes.py` (class `Requisicoes`), a
small HTTP GET wrapper with query-parameter assembly, Bearer/Basic
authentication headers, a retry loop with a 2-second inter-attempt sleep, a
process-wide response cache and JSON pretty-printing.

Python dictionaries are embedded as association lists (`List (String × String)`
and, for JSON objects, `List (String × Json)`), where assigning to an existing
key replaces its value in place and assigning to a fresh key appends — the
observable semantics of `dict` insertion order. The network is embedded as an
oracle `net : Nat → AttemptResult` giving the outcome of each successive
`opener.open` attempt of one call. Side effects (number of network attempts,
seconds slept via `time.sleep(2)`, whether the cache was read, whether the
auth / proxy configuration code ran) are recorded in the result structure.
-/

namespace Requisicoes

/-- Python `dict` lookup on an association list: the value of the first
(unique) matching key. -/
def dictGet : List (String × String) → String → Option String
  | [], _ => none
  | (k, v) :: rest, key => if k = key then some v else dictGet rest key

/-- Python `dict` assignment `d[key] = val`: replace the value in place when
the key exists, append otherwise. -/
def dictInsert : List (String × String) → String → String → List (String × String)
  | [], key, val => [(key, val)]
  | (k, v) :: rest, key, val =>
      if k = key then (k, val) :: rest else (k, v) :: dictInsert rest key val

/-- UTF-8 encoding of one character, as a list of byte values (the bytes of
Python's `str.encode()`). -/
def utf8Char (c : Char) : List Nat :=
  let n := c.toNat
  if n < 128 then [n]
  else if n < 2048 then [192 + n / 64, 128 + n % 64]
  else if n < 65536 then [224 + n / 4096, 128 + (n / 64) % 64, 128 + n % 64]
  else [240 + n / 262144, 128 + (n / 4096) % 64, 128 + (n / 64) % 64, 128 + n % 64]

/-- UTF-8 encoding of a string as a list of byte values. -/
def utf8 (s : String) : List Nat :=
  (s.data.map utf8Char).flatten

/-- The standard base64 alphabet, indexed 0..63. -/
def b64alphabet : List Char :=
  "ABCDEFGHIJKLMNOPQRSTUVWXYZabcdefghijklmnopqrstuvwxyz0123456789+/".data

def b64char (n : Nat) : Char := b64alphabet.getD n 'A'

/-- `base64.b64encode` on a byte list, producing the padded base64 string. -/
def b64encode : List Nat → String
  | [] => ""
  | [a] =>
      String.mk [b64char (a / 4), b64char ((a % 4) * 16), '=', '=']
  | [a, b] =>
      String.mk [b64char (a / 4), b64char ((a % 4) * 16 + b / 16),
        b64char ((b % 16) * 4), '=']
  | a :: b :: c :: rest =>
      String.mk [b64char (a / 4), b64char ((a % 4) * 16 + b / 16),
        b64char ((b % 16) * 4 + c / 64), b64char (c % 64)] ++ b64encode rest

def hexUpper (n : Nat) : Char := "0123456789ABCDEF".data.getD n '0'

/-- One percent-encoded byte, `%XX` with uppercase hex, as produced by
`urllib.parse.quote`. -/
def pctByte (b : Nat) : String :=
  String.mk ['%', hexUpper (b / 16), hexUpper (b % 16)]

/-- The characters `urllib.parse.quote` never encodes: ASCII letters, digits
and `_.-~`. -/
def quoteSafe (c : Char) : Bool :=
  c.isAlphanum || c = '_' || c = '.' || c = '-' || c = '~'

/-- `urllib.parse.quote_plus` with its default arguments as used by
`urlencode`: spaces become `+`, safe characters pass through, every other
character is percent-encoded byte-by-byte in UTF-8. -/
def quote_plus (s : String) : String :=
  String.join (s.data.map fun c =>
    if c = ' ' then "+"
    else if quoteSafe c then String.mk [c]
    else String.join ((utf8Char c).map pctByte))

/-- `urllib.parse.urlencode` on a dict: `k=v` pairs in insertion order,
joined by `&`, keys and values passed through `quote_plus`. -/
def urlencode (params : List (String × String)) : String :=
  String.intercalate "&" (params.map fun kv => quote_plus kv.1 ++ "=" ++ quote_plus kv.2)

/-- Python's `'?' in url`: substring membership, which for the
single-character needle `?` is character membership. -/
def containsQM (url : String) : Bool := url.data.contains '?'

/-- `Requisicoes._montar_url_com_params`: append the encoded query string,
joined with `&` when the URL already contains `?` and with `?` otherwise;
an empty (falsy) params dict leaves the URL unchanged. -/
def montar_url_com_params (url : String) (params : List (String × String)) : String :=
  if params ≠ [] then
    let query_string := urlencode params
    if containsQM url then url ++ "&" ++ query_string
    else url ++ "?" ++ query_string
  else url

/-- `Requisicoes._adicionar_autenticacao`: Bearer header when a `token` key is
present, else Basic with `base64(username:password)` when both keys are
present, else no header. -/
def adicionar_autenticacao (auth : List (String × String)) : List (String × String) :=
  match dictGet auth "token" with
  | some t => [("Authorization", "Bearer " ++ t)]
  | none =>
    match dictGet auth "username", dictGet auth "password" with
    | some u, some p =>
        [("Authorization", "Basic " ++ b64encode (utf8 (u ++ ":" ++ p)))]
    | _, _ => []

/-! ### JSON, for `_formatar_resposta`

`json.loads` / `json.dumps(·, indent=4, ensure_ascii=False)` are embedded
over a `Json` value type. A numeric literal without fraction or exponent
part becomes a Python `int` (arbitrary precision, `Json.int`); one with a
fraction or exponent part becomes a Python `float`, an IEEE-754 binary64
value embedded exactly as `Json.float neg m e` denoting `(-1)^neg · m · 2^e`
with `m < 2^53` (`m = 0` is a signed zero; `m < 2^52` only at the subnormal
exponent `e = -1074`). Decimal-to-double conversion is correct rounding to
nearest, ties to even, with overflow to an infinity and underflow to a
signed zero, as in CPython's `float(str)`; serialization is
`float.__repr__`: the shortest correctly-rounded decimal string that parses
back to the same double, in fixed notation when the decimal exponent lies
in [-4, 16) and scientific notation otherwise. Lone surrogate `\uXXXX`
escapes (which Python admits into its strings) remain outside the modelled
fragment; proper surrogate pairs are combined as Python does. Python's
non-standard literals `NaN`, `Infinity` and `-Infinity`, accepted by
`json.loads` and re-emitted by `json.dumps`, are modelled as atoms, and an
overflowed numeric literal parses to the same infinity atoms. -/

inductive Json where
  | null
  | bool (b : Bool)
  | int (n : Int)
  | float (neg : Bool) (m : Nat) (e : Int)
  | str (s : String)
  | arr (xs : List Json)
  | obj (kvs : List (String × Json))
  | nan
  | inf
  | ninf
  deriving Repr, Inhabited

/-- The `{` character (written by code point to keep braces out of literals). -/
def lbrace : Char := Char.ofNat 123

/-- The `}` character. -/
def rbrace : Char := Char.ofNat 125

/-- JSON insignificant whitespace, skipped by the scanner. -/
def skipWs : List Char → List Char
  | c :: cs =>
      if c = ' ' || c = '\t' || c = '\n' || c = '\r' then skipWs cs else c :: cs
  | [] => []

def hexVal (c : Char) : Option Nat :=
  if '0' ≤ c ∧ c ≤ '9' then some (c.toNat - 48)
  else if 'a' ≤ c ∧ c ≤ 'f' then some (c.toNat - 87)
  else if 'A' ≤ c ∧ c ≤ 'F' then some (c.toNat - 55)
  else none

def hex4 (a b c d : Char) : Option Nat := do
  let x ← hexVal a
  let y ← hexVal b
  let z ← hexVal c
  let w ← hexVal d
  pure (x * 4096 + y * 256 + z * 16 + w)

/-- Single-character escapes admitted after a backslash in a JSON string. -/
def escMap (c : Char) : Option Char :=
  if c = '"' then some '"'
  else if c = '\\' then some '\\'
  else if c = '/' then some '/'
  else if c = 'b' then some (Char.ofNat 8)
  else if c = 'f' then some (Char.ofNat 12)
  else if c = 'n' then some '\n'
  else if c = 'r' then some '\r'
  else if c = 't' then some '\t'
  else none

/-- Scan the body of a JSON string after its opening quote, returning the
decoded characters and the input remaining after the closing quote. Raw
control characters are rejected (`strict=True`, the `json.loads` default);
surrogate pairs of `\uXXXX` escapes are combined. -/
def parseStrChars : List Char → Option (List Char × List Char)
  | [] => none
  | '"' :: rest => some ([], rest)
  | '\\' :: 'u' :: a :: b :: c :: d :: rest => do
      let n ← hex4 a b c d
      if 55296 ≤ n ∧ n < 56320 then
        match rest with
        | '\\' :: 'u' :: a2 :: b2 :: c2 :: d2 :: rest2 => do
            let m ← hex4 a2 b2 c2 d2
            if 56320 ≤ m ∧ m < 57344 then
              let p ← parseStrChars rest2
              pure (Char.ofNat (65536 + (n - 55296) * 1024 + (m - 56320)) :: p.1, p.2)
            else none
        | _ => none
      else if 56320 ≤ n ∧ n < 57344 then none
      else do
        let p ← parseStrChars rest
        pure (Char.ofNat n :: p.1, p.2)
  | '\\' :: e :: rest => do
      let ec ← escMap e
      let p ← parseStrChars rest
      pure (ec :: p.1, p.2)
  | c :: rest =>
      if c.toNat < 32 then none
      else do
        let p ← parseStrChars rest
        pure (c :: p.1, p.2)

/-- Split a leading run of decimal digits. -/
def takeDigits : List Char → List Char × List Char
  | [] => ([], [])
  | c :: cs =>
      if c.isDigit then
        let r := takeDigits (cs)
        (c :: r.1, r.2)
      else ([], c :: cs)

def digitsToNat (ds : List Char) : Nat :=
  ds.foldl (fun acc c => acc * 10 + (c.toNat - 48)) 0

/-! #### Exact binary64 arithmetic for Python `float`

`2^52 = 4503599627370496` and `2^53 = 9007199254740992` below are the
binary64 mantissa bounds; `-1074` is the subnormal exponent and `971` the
largest finite exponent (`(2^53 - 1) · 2^971` is the largest double). -/

/-- Number of binary digits of `n < 2^64` (0 for 0); the first argument is
fuel, 64 is always enough. -/
def bitlenSmall : Nat → Nat → Nat
  | 0, _ => 0
  | fuel + 1, n => if n = 0 then 0 else bitlenSmall fuel (n / 2) + 1

/-- Number of binary digits of `n` (0 for 0), descending by 64-bit words.
The first argument is fuel; `n` itself is always enough. -/
def bitlenAux : Nat → Nat → Nat
  | 0, _ => 0
  | fuel + 1, n =>
      if n < 18446744073709551616 then bitlenSmall 64 n
      else bitlenAux fuel (n / 18446744073709551616) + 64

def bitlen (n : Nat) : Nat := bitlenAux n n

/-- Round the exact rational `n / d` (with `d ≠ 0`) to the nearest integer,
ties to even. -/
def rhe (n d : Nat) : Nat :=
  let q := n / d
  let r := n % d
  if d < 2 * r then q + 1
  else if 2 * r < d then q
  else if q % 2 = 1 then q + 1 else q

/-- `⌊(a / b) / 2^e⌋` for the exact rational `a / b`. -/
def floorScaled (a b : Nat) (e : Int) : Nat :=
  if 0 ≤ e then a / (b * 2 ^ e.toNat) else a * 2 ^ (-e).toNat / b

/-- Round `(a / b) / 2^e` to the nearest integer, ties to even. -/
def roundScaled (a b : Nat) (e : Int) : Nat :=
  if 0 ≤ e then rhe a (b * 2 ^ e.toNat) else rhe (a * 2 ^ (-e).toNat) b

/-- Find the mantissa/exponent pair for the positive rational `a / b`:
adjust the exponent estimate until the scaled floor lands in the binary64
mantissa range (or the subnormal exponent -1074 is reached), then round to
nearest, ties to even, renormalizing a mantissa overflow. The fuel bounds
the (at most two) adjustment steps. -/
def fitMantissa (a b : Nat) : Nat → Int → Nat × Int
  | 0, e => (roundScaled a b e, e)
  | fuel + 1, e =>
    let m0 := floorScaled a b e
    if 9007199254740992 ≤ m0 then fitMantissa a b fuel (e + 1)
    else if m0 < 4503599627370496 ∧ -1074 < e then fitMantissa a b fuel (e - 1)
    else
      let m := roundScaled a b e
      if m = 9007199254740992 then (4503599627370496, e + 1) else (m, e)

/-- CPython `float(s)` on the decimal `d · 10^p`: the correctly rounded
(nearest, ties to even) binary64 value as `some (m, e)` — `m = 0` for an
underflow to zero — or `none` on overflow to an infinity. -/
def floatRoundDecimal (d : Nat) (p : Int) : Option (Nat × Int) :=
  if d = 0 then some (0, 0)
  else
    let a := if 0 ≤ p then d * 10 ^ p.toNat else d
    let b := if 0 ≤ p then 1 else 10 ^ (-p).toNat
    let e0 : Int := (bitlen a : Int) - (bitlen b : Int) - 53
    let r := fitMantissa a b 8 (max e0 (-1074))
    if r.1 = 0 then some (0, 0)
    else if 971 < r.2 then none
    else some r

/-- Whether the positive rational `a / b` is at least `10^t`. -/
def tenPowLe (a b : Nat) (t : Int) : Bool :=
  if 0 ≤ t then decide (b * 10 ^ t.toNat ≤ a) else decide (b ≤ a * 10 ^ (-t).toNat)

/-- Adjust a decimal-exponent estimate until `10^(t-1) ≤ a/b < 10^t`. -/
def adjustT (a b : Nat) : Nat → Int → Int
  | 0, t => t
  | fuel + 1, t =>
    if tenPowLe a b t then adjustT a b fuel (t + 1)
    else if ¬ tenPowLe a b (t - 1) then adjustT a b fuel (t - 1)
    else t

/-- The `t` with `10^(t-1) ≤ a/b < 10^t` for a positive rational `a / b`. -/
def findT (a b : Nat) : Int :=
  adjustT a b 8 (((bitlen a : Int) - (bitlen b : Int)) * 30103 / 100000)

/-- The positive rational `a / b` rounded (nearest, ties to even) to `n`
significant decimal digits, as the integer `round((a/b) / 10^(t-n))`. -/
def digitsAt (a b : Nat) (t : Int) (n : Nat) : Nat :=
  let s := t - (n : Int)
  if 0 ≤ s then rhe a (b * 10 ^ s.toNat) else rhe (a * 10 ^ (-s).toNat) b

/-- The positive rational `a / b` truncated to `n` significant decimal
digits (`⌊(a/b) / 10^(t-n)⌋`), together with the comparison of twice the
remainder against the divisor, i.e. whether the value lies below, at, or
above the midpoint of the two n-digit neighbours. -/
def digitsFloorAt (a b : Nat) (t : Int) (n : Nat) : Nat × Ordering :=
  let s := t - (n : Int)
  let num := if 0 ≤ s then a else a * 10 ^ (-s).toNat
  let den := if 0 ≤ s then b * 10 ^ s.toNat else b
  (num / den, compare (2 * (num % den)) den)

/-- Shortest digit string (as `(digits, t, n)`) whose decimal value parses
back to the double `m · 2^e`, trying 1 to 17 significant digits as in
`dtoa` mode 0 (CPython's `repr`): at each length the two neighbouring
candidates (truncation and truncation+1) are accepted when they read back
as the same double; when both are acceptable the closer one is taken, with
an exact midpoint going to the even digit. 17 correctly-rounded digits
always read back. The fuel counts down from 17, so the digit count tried is
`18 - fuel`. -/
def shortestDigits (a b : Nat) (m : Nat) (e : Int) (t : Int) : Nat → Nat × Int × Nat
  | 0 => (digitsAt a b t 17, t, 17)
  | fuel + 1 =>
    let n := 18 - (fuel + 1)
    if n = 17 then
      let d0 := digitsAt a b t 17
      if d0 = 10 ^ 17 then (10 ^ 16, t + 1, 17) else (d0, t, 17)
    else
      let fd := digitsFloorAt a b t n
      let low := fd.1
      let high := if low + 1 = 10 ^ n then (10 ^ (n - 1), t + 1) else (low + 1, t)
      let lowOK : Bool := decide (floatRoundDecimal low (t - (n : Int)) = some (m, e))
      let highOK : Bool := decide (floatRoundDecimal high.1 (high.2 - (n : Int)) = some (m, e))
      if lowOK && highOK then
        match fd.2 with
        | Ordering.gt => (high.1, high.2, n)
        | Ordering.lt => (low, t, n)
        | Ordering.eq => if low % 2 = 0 then (low, t, n) else (high.1, high.2, n)
      else if lowOK then (low, t, n)
      else if highOK then (high.1, high.2, n)
      else shortestDigits a b m e t fuel

/-- Decimal digit characters of `n` (most significant first); `"0"` for 0.
The first argument is fuel; `n` itself is always enough. -/
def natDigitsAux : Nat → Nat → List Char
  | 0, _ => []
  | fuel + 1, n => if n = 0 then [] else natDigitsAux fuel (n / 10) ++ [Char.ofNat (48 + n % 10)]

def natDigits (n : Nat) : List Char :=
  if n = 0 then ['0'] else natDigitsAux n n

/-- `float.__repr__` of the finite double `(-1)^neg · m · 2^e` (also used by
`json.dumps`): the shortest round-tripping digit string, rendered in fixed
notation when the scientific exponent lies in [-4, 16) (with a trailing
`.0` when there is no fractional part) and otherwise in scientific notation
with an explicit exponent sign and at least two exponent digits. -/
def pyFloatRepr (neg : Bool) (m : Nat) (e : Int) : String :=
  if m = 0 then (if neg then "-0.0" else "0.0")
  else
    let a := if 0 ≤ e then m * 2 ^ e.toNat else m
    let b := if 0 ≤ e then 1 else 2 ^ (-e).toNat
    let t0 := findT a b
    let dtn := shortestDigits a b m e t0 17
    let ds := natDigits dtn.1
    let t := dtn.2.1
    let n := dtn.2.2
    let se := t - 1
    let core :=
      if -4 ≤ se ∧ se < 16 then
        if (n : Int) ≤ t then
          String.mk ds ++ String.mk (List.replicate (t - (n : Int)).toNat '0') ++ ".0"
        else if 0 < t then
          String.mk (ds.take t.toNat) ++ "." ++ String.mk (ds.drop t.toNat)
        else
          "0." ++ String.mk (List.replicate (-t).toNat '0') ++ String.mk ds
      else
        let mant :=
          if n = 1 then String.mk ds
          else String.mk (ds.take 1) ++ "." ++ String.mk (ds.drop 1)
        let eabs := natDigits (if se < 0 then (-se).toNat else se.toNat)
        let epad := if eabs.length < 2 then '0' :: eabs else eabs
        mant ++ "e" ++ (if se < 0 then "-" else "+") ++ String.mk epad
    (if neg then "-" else "") ++ core

/-- The fraction and exponent parts of a JSON number after its integer part,
following CPython's scanner regex
`(-?(?:0|[1-9]\d+*))(\.\d+)?([eE][-+]?\d+)?`: a fraction or exponent is
consumed only when well formed, and the number is a Python `int` when
neither is present and a Python `float` otherwise. -/
def parseNumberTail (neg : Bool) (intPart : Nat) (cs : List Char) : Json × List Char :=
  let fr : List Char × List Char :=
    match cs with
    | '.' :: d :: rest =>
        if d.isDigit then takeDigits (d :: rest) else ([], cs)
    | _ => ([], cs)
  let ex : Option Int × List Char :=
    match fr.2 with
    | e :: rest =>
        if e = 'e' || e = 'E' then
          match rest with
          | '+' :: d :: rest2 =>
              if d.isDigit then
                let r := takeDigits (d :: rest2)
                (some (digitsToNat r.1 : Int), r.2)
              else (none, fr.2)
          | '-' :: d :: rest2 =>
              if d.isDigit then
                let r := takeDigits (d :: rest2)
                (some (-(digitsToNat r.1 : Int)), r.2)
              else (none, fr.2)
          | d :: rest2 =>
              if d.isDigit then
                let r := takeDigits (d :: rest2)
                (some (digitsToNat r.1 : Int), r.2)
              else (none, fr.2)
          | [] => (none, fr.2)
        else (none, fr.2)
    | [] => (none, fr.2)
  if fr.1 = [] ∧ ex.1 = none then
    (Json.int (if neg then -(intPart : Int) else (intPart : Int)), ex.2)
  else
    let d := intPart * 10 ^ fr.1.length + digitsToNat fr.1
    let p := ex.1.getD 0 - (fr.1.length : Int)
    match floatRoundDecimal d p with
    | some me => (Json.float neg me.1 me.2, ex.2)
    | none => (if neg then Json.ninf else Json.inf, ex.2)

/-- A JSON number after an optional leading `-`: the integer part is `0` or
a nonzero digit followed by digits, then `parseNumberTail`. -/
def parseNumber (neg : Bool) : List Char → Option (Json × List Char)
  | [] => none
  | c :: cs =>
      if c = '0' then some (parseNumberTail neg 0 cs)
      else if c.isDigit then
        let r := takeDigits (c :: cs)
        some (parseNumberTail neg (digitsToNat r.1) r.2)
      else none

/-- Python `dict` insertion for JSON object members: a repeated key keeps its
first position but takes the last value, as in `dict(pairs)`. -/
def jsonObjInsert : List (String × Json) → String → Json → List (String × Json)
  | [], key, val => [(key, val)]
  | (k, v) :: rest, key, val =>
      if k = key then (k, val) :: rest else (k, v) :: jsonObjInsert rest key val

mutual

/-- Parse one JSON value (leading whitespace allowed), returning it and the
unconsumed input. The fuel decreases on every nested parse; callers supply
`length + 1`, which suffices because every recursive call first consumes at
least one character. -/
def parseVal : Nat → List Char → Option (Json × List Char)
  | 0, _ => none
  | fuel + 1, cs =>
    match skipWs cs with
    | [] => none
    | c :: rest =>
      if c = '"' then
        (parseStrChars rest).map fun p => (Json.str (String.mk p.1), p.2)
      else if c = lbrace then
        match skipWs rest with
        | c2 :: rest2 =>
            if c2 = rbrace then some (Json.obj [], rest2)
            else (parseObjItems fuel [] (skipWs rest)).map fun p => (Json.obj p.1, p.2)
        | [] => none
      else if c = '[' then
        match skipWs rest with
        | ']' :: rest2 => some (Json.arr [], rest2)
        | _ => (parseArrItems fuel (skipWs rest)).map fun p => (Json.arr p.1, p.2)
      else if c = '-' then
        match rest with
        | 'I' :: 'n' :: 'f' :: 'i' :: 'n' :: 'i' :: 't' :: 'y' :: rest2 =>
            some (Json.ninf, rest2)
        | _ => parseNumber true rest
      else
        match c :: rest with
        | 'n' :: 'u' :: 'l' :: 'l' :: rest2 => some (Json.null, rest2)
        | 't' :: 'r' :: 'u' :: 'e' :: rest2 => some (Json.bool true, rest2)
        | 'f' :: 'a' :: 'l' :: 's' :: 'e' :: rest2 => some (Json.bool false, rest2)
        | 'N' :: 'a' :: 'N' :: rest2 => some (Json.nan, rest2)
        | 'I' :: 'n' :: 'f' :: 'i' :: 'n' :: 'i' :: 't' :: 'y' :: rest2 =>
            some (Json.inf, rest2)
        | other => parseNumber false other

/-- Parse the members of a non-empty array after `[`, up to and including the
closing `]`. -/
def parseArrItems : Nat → List Char → Option (List Json × List Char)
  | 0, _ => none
  | fuel + 1, cs => do
    let (j, rest) ← parseVal fuel cs
    match skipWs rest with
    | ',' :: rest2 => do
        let p ← parseArrItems fuel rest2
        pure (j :: p.1, p.2)
    | ']' :: rest2 => pure ([j], rest2)
    | _ => none

/-- Parse the members of a non-empty object after its opening brace, up to
and including the closing brace, accumulating into `acc` with `dict`
insertion semantics. -/
def parseObjItems : Nat → List (String × Json) → List Char → Option (List (String × Json) × List Char)
  | 0, _, _ => none
  | fuel + 1, acc, cs =>
    match skipWs cs with
    | '"' :: rest => do
        let (kcs, rest2) ← parseStrChars rest
        match skipWs rest2 with
        | ':' :: rest3 => do
            let (v, rest4) ← parseVal fuel rest3
            let acc2 := jsonObjInsert acc (String.mk kcs) v
            match skipWs rest4 with
            | ',' :: rest5 => parseObjItems fuel acc2 rest5
            | c :: rest5 =>
                if c = rbrace then pure (acc2, rest5) else none
            | [] => none
        | _ => none
    | _ => none

end

/-- `json.loads`: parse one value, then require only whitespace to follow. -/
def json_loads (s : String) : Option Json :=
  match parseVal (s.length + 1) s.data with
  | some (j, rest) => if skipWs rest = [] then some j else none
  | none => none

def hexLower (n : Nat) : Char := "0123456789abcdef".data.getD n '0'

/-- Escape one character for `json.dumps` output with `ensure_ascii=False`:
only the quote, the backslash and control characters are escaped; everything
else — non-ASCII included — passes through literally. -/
def dumpEscChar (c : Char) : String :=
  if c = '"' then "\\\""
  else if c = '\\' then "\\\\"
  else if c = '\n' then "\\n"
  else if c = '\r' then "\\r"
  else if c = '\t' then "\\t"
  else if c = Char.ofNat 8 then "\\b"
  else if c = Char.ofNat 12 then "\\f"
  else if c.toNat < 32 then
    String.mk ['\\', 'u', '0', '0', hexLower (c.toNat / 16), hexLower (c.toNat % 16)]
  else String.mk [c]

def dumpStr (s : String) : String :=
  "\"" ++ String.join (s.data.map dumpEscChar) ++ "\""

/-- `4 * lvl` spaces of indentation (`indent=4`). -/
def indentAt (lvl : Nat) : String :=
  String.mk (List.replicate (4 * lvl) ' ')

mutual

/-- `json.dumps(·, indent=4, ensure_ascii=False)` at nesting level `lvl`:
with an indent the separators default to `,` + newline and `: `. -/
def dumpsVal : Json → Nat → String
  | Json.null, _ => "null"
  | Json.bool true, _ => "true"
  | Json.bool false, _ => "false"
  | Json.int n, _ => toString n
  | Json.float neg m e, _ => pyFloatRepr neg m e
  | Json.nan, _ => "NaN"
  | Json.inf, _ => "Infinity"
  | Json.ninf, _ => "-Infinity"
  | Json.str s, _ => dumpStr s
  | Json.arr [], _ => "[]"
  | Json.arr (x :: xs), lvl =>
      "[\n" ++ indentAt (lvl + 1) ++ dumpsArr x xs (lvl + 1) ++ "\n" ++ indentAt lvl ++ "]"
  | Json.obj [], _ => "\x7b\x7d"
  | Json.obj (kv :: kvs), lvl =>
      "\x7b\n" ++ indentAt (lvl + 1) ++ dumpsObj kv kvs (lvl + 1) ++ "\n" ++ indentAt lvl ++ "\x7d"
termination_by j _ => sizeOf j

def dumpsArr : Json → List Json → Nat → String
  | x, [], lvl => dumpsVal x lvl
  | x, y :: ys, lvl => dumpsVal x lvl ++ ",\n" ++ indentAt lvl ++ dumpsArr y ys lvl
termination_by x xs _ => 1 + sizeOf x + sizeOf xs

def dumpsObj : String × Json → List (String × Json) → Nat → String
  | (k, v), [], lvl => dumpStr k ++ ": " ++ dumpsVal v lvl
  | (k, v), kv2 :: rest, lvl =>
      dumpStr k ++ ": " ++ dumpsVal v lvl ++ ",\n" ++ indentAt lvl ++ dumpsObj kv2 rest lvl
termination_by kv kvs _ => 1 + sizeOf kv + sizeOf kvs

end

/-- `json.dumps(dados, indent=4, ensure_ascii=False)` as called by
`_formatar_resposta`. -/
def json_dumps (j : Json) : String := dumpsVal j 0

/-- `Requisicoes._formatar_resposta`: pretty-print when the body parses as
JSON, otherwise return the body unchanged. -/
def formatar_resposta (resposta : String) : String :=
  match json_loads resposta with
  | some dados => json_dumps dados
  | none => resposta

/-! ### `fazer_get` -/

/-- The exceptions caught by `fazer_get`'s `except` clause. In CPython's
`urllib/error.py`, `HTTPError` is declared as a subclass of `URLError`, a
fact the embedding records in `isinstanceURLError`. -/
inductive PyError where
  | httpError (code : Nat) (reason : String)
  | urlError (reason : String)
  deriving Repr, DecidableEq

/-- Python's `isinstance(e, urllib.error.URLError)`: true for both kinds,
because `HTTPError` subclasses `URLError`. -/
def isinstanceURLError : PyError → Bool
  | PyError.httpError _ _ => true
  | PyError.urlError _ => true

def pyReason : PyError → String
  | PyError.httpError _ r => r
  | PyError.urlError r => r

/-- `e.code`; only an `HTTPError` carries one (the `urlError` value is a
placeholder for a branch the embedded code never takes on a `URLError`). -/
def pyCode : PyError → Nat
  | PyError.httpError c _ => c
  | PyError.urlError _ => 0

/-- The `erro_msg` conditional expression of `fazer_get` (line 69): the
transport form when the `isinstance` test succeeds, the HTTP form
otherwise. -/
def erro_msg (e : PyError) : String :=
  if isinstanceURLError e then "Erro: " ++ pyReason e
  else "Erro HTTP: " ++ toString (pyCode e) ++ " - " ++ pyReason e

/-- Outcome of one `opener.open` attempt: a body that was read and decoded,
or a raised exception. -/
inductive AttemptResult where
  | success (body : String)
  | failure (e : PyError)
  deriving Repr

def AttemptResult.isFailure : AttemptResult → Bool
  | AttemptResult.success _ => false
  | AttemptResult.failure _ => true

/-- Observable outcome of the `while tentativa < retries` loop: the value
returned from inside it (`none` when the loop falls through), the cache
afterwards, the number of `opener.open` attempts made and the total seconds
slept in `time.sleep(2)` calls. -/
structure LoopOut where
  ret : Option String
  cache : List (String × String)
  attempts : Nat
  sleepSeconds : Nat
  deriving Repr

/-- The retry loop of `fazer_get` (lines 55–74), from loop counter
`tentativa`. Attempt number `tentativa.toNat` is the oracle index: within a
call the counter is 0, 1, … on successive iterations. On success the
formatted body is cached and returned; on an exception the final attempt
returns `erro_msg`, earlier ones sleep 2 seconds and retry. -/
def fazer_get_loop (net : Nat → AttemptResult) (url : String) (retries : Int)
    (cache : List (String × String)) (tentativa : Int) : LoopOut :=
  if tentativa < retries then
    match net tentativa.toNat with
    | AttemptResult.success dados =>
        let resposta_formatada := formatar_resposta dados
        { ret := some resposta_formatada,
          cache := dictInsert cache url resposta_formatada,
          attempts := 1, sleepSeconds := 0 }
    | AttemptResult.failure e =>
        if tentativa = retries - 1 then
          { ret := some (erro_msg e), cache := cache, attempts := 1, sleepSeconds := 0 }
        else
          let r := fazer_get_loop net url retries cache (tentativa + 1)
          { r with attempts := r.attempts + 1, sleepSeconds := r.sleepSeconds + 2 }
  else
    { ret := none, cache := cache, attempts := 0, sleepSeconds := 0 }
termination_by (retries - tentativa).toNat
decreasing_by omega

/-- Observable outcome of one `fazer_get` call: the returned string, the
cache afterwards, the attempt and sleep counts, and whether the cache
membership test ran (`use_cache and url in cache`), whether
`_adicionar_autenticacao` ran (`if auth:`), whether the `ProxyHandler` was
built (`if proxy:`), and whether the return value is the post-loop fallback
string rather than a return from inside the loop. -/
structure GetResult where
  retorno : String
  cache : List (String × String)
  attempts : Nat
  sleepSeconds : Nat
  cacheRead : Bool
  authProcessed : Bool
  proxyProcessed : Bool
  fromFallback : Bool
  deriving Repr

/-- Python truthiness of an optional dict argument: `None` and `{}` are
falsy. -/
def dictTruthy : Option (List (String × String)) → Bool
  | none => false
  | some l => decide (l ≠ [])

/-- The URL after step one of `fazer_get` (lines 31–32): query parameters
are appended when `params` is truthy. -/
def assembled_url (url : String) (params : List (String × String)) : String :=
  if params ≠ [] then montar_url_com_params url params else url

/-- `Requisicoes.fazer_get`. The `headers` and `timeout` arguments are
omitted: they are only passed through to the transport, whose outcomes the
oracle `net` already fixes, so they have no further observable effect. The
shared class attribute `Requisicoes.cache` is threaded explicitly as the
`cache` argument and the `cache` field of the result. -/
def fazer_get (net : Nat → AttemptResult) (url : String)
    (params : List (String × String)) (retries : Int) (use_cache : Bool)
    (proxy : Option (List (String × String)))
    (auth : Option (List (String × String)))
    (cache : List (String × String)) : GetResult :=
  let url := assembled_url url params
  let hit := use_cache && (dictGet cache url).isSome
  if hit then
    { retorno := (dictGet cache url).getD "", cache := cache,
      attempts := 0, sleepSeconds := 0, cacheRead := use_cache,
      authProcessed := false, proxyProcessed := false, fromFallback := false }
  else
    let authProcessed := dictTruthy auth
    let proxyProcessed := dictTruthy proxy
    let r := fazer_get_loop net url retries cache 0
    match r.ret with
    | some s =>
        { retorno := s, cache := r.cache, attempts := r.attempts,
          sleepSeconds := r.sleepSeconds, cacheRead := use_cache,
          authProcessed := authProcessed, proxyProcessed := proxyProcessed,
          fromFallback := false }
    | none =>
        { retorno := "Erro: Número máximo de tentativas atingido.",
          cache := r.cache, attempts := r.attempts,
          sleepSeconds := r.sleepSeconds, cacheRead := use_cache,
          authProcessed := authProcessed, proxyProcessed := proxyProcessed,
          fromFallback := true }

/-! ### Loop lemmas -/

/-- When the loop is not entered (`retries ≤ tentativa`) nothing happens. -/
theorem fazer_get_loop_not_entered (net : Nat → AttemptResult) (url : String)
    (retries : Int) (cache : List (String × String)) (tentativa : Int)
    (h : ¬ tentativa < retries) :
    fazer_get_loop net url retries cache tentativa =
      { ret := none, cache := cache, attempts := 0, sleepSeconds := 0 } := by
  rw [fazer_get_loop, if_neg h]

/-- Every entered loop performs at least one attempt. -/
theorem fazer_get_loop_attempts_pos (net : Nat → AttemptResult) (url : String)
    (retries : Int) (cache : List (String × String)) (tentativa : Int)
    (h : tentativa < retries) :
    1 ≤ (fazer_get_loop net url retries cache tentativa).attempts := by
  rw [fazer_get_loop, if_pos h]
  cases hnet : net tentativa.toNat with
  | success dados => simp
  | failure e =>
    by_cases hl : tentativa = retries - 1
    · simp [hl]
    · simp [hl]

/-- An entered loop always returns from inside: its `ret` is `some`. -/
theorem fazer_get_loop_isSome (net : Nat → AttemptResult) (url : String)
    (retries : Int) (cache : List (String × String)) :
    ∀ tentativa : Int, tentativa < retries →
      (fazer_get_loop net url retries cache tentativa).ret.isSome := by
  have key : ∀ n : Nat, ∀ tentativa : Int, tentativa < retries →
      (retries - tentativa).toNat = n →
      (fazer_get_loop net url retries cache tentativa).ret.isSome := by
    intro n
    induction n with
    | zero => intro t hlt hn; omega
    | succ n ih =>
      intro t hlt hn
      rw [fazer_get_loop, if_pos hlt]
      cases hnet : net t.toNat with
      | success dados => simp
      | failure e =>
        by_cases hl : t = retries - 1
        · simp [hl]
        · have h1 : t + 1 < retries := by omega
          simpa [hl] using ih (t + 1) h1 (by omega)
  intro tentativa hlt
  exact key (retries - tentativa).toNat tentativa hlt rfl

/-- The loop either leaves the cache untouched or stores the formatted body
of a successful attempt under the URL. -/
theorem fazer_get_loop_cache (net : Nat → AttemptResult) (url : String)
    (retries : Int) (cache : List (String × String)) :
    ∀ tentativa : Int,
      (fazer_get_loop net url retries cache tentativa).cache = cache ∨
      ∃ k body, net k = AttemptResult.success body ∧
        (fazer_get_loop net url retries cache tentativa).cache =
          dictInsert cache url (formatar_resposta body) := by
  have key : ∀ n : Nat, ∀ tentativa : Int, (retries - tentativa).toNat = n →
      (fazer_get_loop net url retries cache tentativa).cache = cache ∨
      ∃ k body, net k = AttemptResult.success body ∧
        (fazer_get_loop net url retries cache tentativa).cache =
          dictInsert cache url (formatar_resposta body) := by
    intro n
    induction n with
    | zero =>
      intro t hn
      by_cases hlt : t < retries
      · omega
      · left; rw [fazer_get_loop_not_entered net url retries cache t hlt]
    | succ n ih =>
      intro t hn
      by_cases hlt : t < retries
      · rw [fazer_get_loop, if_pos hlt]
        cases hnet : net t.toNat with
        | success dados =>
          right
          exact ⟨t.toNat, dados, hnet, by simp⟩
        | failure e =>
          by_cases hl : t = retries - 1
          · left; simp [hl]
          · have := ih (t + 1) (by omega)
            rcases this with hsame | ⟨k, body, hk, hins⟩
            · left; simpa [hl] using hsame
            · right; exact ⟨k, body, hk, by simpa [hl] using hins⟩
      · left; rw [fazer_get_loop_not_entered net url retries cache t hlt]
  intro tentativa
  exact key (retries - tentativa).toNat tentativa rfl

/-- When every attempt raises, the loop performs all remaining attempts with
a 2-second sleep between consecutive ones, leaves the cache unchanged and
returns the final attempt's error message. -/
theorem fazer_get_loop_all_fail (net : Nat → AttemptResult) (url : String)
    (retries : Int) (cache : List (String × String)) (errs : Nat → PyError)
    (hf : ∀ k, k < retries.toNat → net k = AttemptResult.failure (errs k)) :
    ∀ tentativa : Int, 0 ≤ tentativa → tentativa < retries →
      fazer_get_loop net url retries cache tentativa =
        { ret := some (erro_msg (errs (retries - 1).toNat)),
          cache := cache,
          attempts := (retries - tentativa).toNat,
          sleepSeconds := 2 * ((retries - tentativa).toNat - 1) } := by
  have key : ∀ n : Nat, ∀ tentativa : Int, 0 ≤ tentativa → tentativa < retries →
      (retries - tentativa).toNat = n →
      fazer_get_loop net url retries cache tentativa =
        { ret := some (erro_msg (errs (retries - 1).toNat)),
          cache := cache,
          attempts := (retries - tentativa).toNat,
          sleepSeconds := 2 * ((retries - tentativa).toNat - 1) } := by
    intro n
    induction n with
    | zero => intro t h0 hlt hn; omega
    | succ n ih =>
      intro t h0 hlt hn
      rw [fazer_get_loop, if_pos hlt, hf t.toNat (by omega)]
      dsimp only
      by_cases hl : t = retries - 1
      · subst hl
        rw [if_pos rfl]
        simp only [LoopOut.mk.injEq, eq_self_iff_true, true_and, and_true]
        omega
      · rw [if_neg hl]
        have h1 : t + 1 < retries := by omega
        rw [ih (t + 1) (by omega) h1 (by omega)]
        simp only [LoopOut.mk.injEq, eq_self_iff_true, true_and, and_true]
        omega
  intro tentativa h0 hlt
  exact key (retries - tentativa).toNat tentativa h0 hlt rfl

/-- On a cache hit with `use_cache = true` the call returns the stored entry
with no further effects. -/
theorem fazer_get_hit (net : Nat → AttemptResult) (url : String)
    (params : List (String × String)) (retries : Int)
    (proxy auth : Option (List (String × String)))
    (cache : List (String × String)) (v : String)
    (hv : dictGet cache (assembled_url url params) = some v) :
    fazer_get net url params retries true proxy auth cache =
      { retorno := v, cache := cache, attempts := 0, sleepSeconds := 0,
        cacheRead := true, authProcessed := false, proxyProcessed := false,
        fromFallback := false } := by
  simp [fazer_get, hv]

/-- When the cache is not hit (`use_cache = false`, or no entry for the
assembled URL), the call's observables are those of the retry loop. -/
theorem fazer_get_miss (net : Nat → AttemptResult) (url : String)
    (params : List (String × String)) (retries : Int) (use_cache : Bool)
    (proxy auth : Option (List (String × String)))
    (cache : List (String × String))
    (h : use_cache = false ∨ dictGet cache (assembled_url url params) = none) :
    (fazer_get net url params retries use_cache proxy auth cache).cache =
      (fazer_get_loop net (assembled_url url params) retries cache 0).cache ∧
    (fazer_get net url params retries use_cache proxy auth cache).attempts =
      (fazer_get_loop net (assembled_url url params) retries cache 0).attempts ∧
    (fazer_get net url params retries use_cache proxy auth cache).sleepSeconds =
      (fazer_get_loop net (assembled_url url params) retries cache 0).sleepSeconds ∧
    (fazer_get net url params retries use_cache proxy auth cache).cacheRead = use_cache ∧
    ((fazer_get net url params retries use_cache proxy auth cache).fromFallback = false ↔
      ((fazer_get_loop net (assembled_url url params) retries cache 0).ret).isSome) ∧
    (∀ s, (fazer_get_loop net (assembled_url url params) retries cache 0).ret = some s →
      (fazer_get net url params retries use_cache proxy auth cache).retorno = s) ∧
    ((fazer_get_loop net (assembled_url url params) retries cache 0).ret = none →
      (fazer_get net url params retries use_cache proxy auth cache).retorno =
        "Erro: Número máximo de tentativas atingido.") := by
  have hhit : (use_cache && (dictGet cache (assembled_url url params)).isSome) = false := by
    rcases h with h | h <;> simp [h]
  cases hr : (fazer_get_loop net (assembled_url url params) retries cache 0).ret with
  | none => simp [fazer_get, hhit, hr]
  | some s => simp [fazer_get, hhit, hr]

end Requisicoes

/-! ### Claims -/

open Requisicoes

/-- C1: the claim says an HTTP error status yields a string of the form
"Erro HTTP: <status code> - <reason>" while transport failures yield
"Erro: <reason>". In CPython, `urllib.error.HTTPError` is a subclass of
`urllib.error.URLError`, so the `isinstance(e, urllib.error.URLError)` test
on line 69 is also true for HTTP status errors and the "Erro HTTP" branch is
dead: at the failing input (every attempt raising `HTTPError` 404
"Not Found") the call returns "Erro: Not Found", not
"Erro HTTP: 404 - Not Found". -/
theorem c1_http_status_error_rendered_with_transport_form :
    erro_msg (PyError.httpError 404 "Not Found") = "Erro: Not Found" ∧
    (fazer_get (fun _ => AttemptResult.failure (PyError.httpError 404 "Not Found"))
        "http://x" [] 3 true none none []).retorno = "Erro: Not Found" ∧
    (fazer_get (fun _ => AttemptResult.failure (PyError.httpError 404 "Not Found"))
        "http://x" [] 3 true none none []).retorno ≠ "Erro HTTP: 404 - Not Found" := by
  have hl := fazer_get_loop_all_fail
    (fun _ => AttemptResult.failure (PyError.httpError 404 "Not Found")) "http://x" 3 []
    (fun _ => PyError.httpError 404 "Not Found") (fun k _ => rfl) 0 (by omega) (by omega)
  have hm := fazer_get_miss
    (fun _ => AttemptResult.failure (PyError.httpError 404 "Not Found")) "http://x" [] 3 true
    none none [] (Or.inr rfl)
  rw [show assembled_url "http://x" [] = "http://x" from rfl] at hm
  have hret := hm.2.2.2.2.2.1 (erro_msg (PyError.httpError 404 "Not Found")) (by rw [hl])
  refine ⟨rfl, ?_, ?_⟩
  · rw [hret]; rfl
  · rw [hret]; decide

/-- C2 counterexample: the claim says a call with useCache=false leaves the
cache mapping unchanged; but a successful attempt writes the cache
unconditionally (line 64), so a useCache=false call that succeeds changes
the empty cache into a non-empty one. -/
theorem c2_counterexample_cache_written_despite_no_cache :
    (fazer_get (fun _ => AttemptResult.success "x") "http://x" [] 3 false none none []).cache
      ≠ [] := by
  have hloop : fazer_get_loop (fun _ => AttemptResult.success "x") "http://x" 3 [] 0 =
      { ret := some "x", cache := [("http://x", "x")], attempts := 1, sleepSeconds := 0 } := by
    rw [fazer_get_loop]
    norm_num [show formatar_resposta "x" = "x" from rfl, dictInsert]
  have hm := fazer_get_miss (fun _ => AttemptResult.success "x") "http://x" [] 3 false
    none none [] (Or.inl rfl)
  rw [show assembled_url "http://x" [] = "http://x" from rfl] at hm
  rw [hm.1, hloop]
  simp

/-- C2 amended: with useCache=false the cache is never read (the membership
test is not executed, so the result is computed without consulting it), but
the cache is not always left unchanged: it is unchanged unless an attempt
succeeds, in which case the formatted body of that successful attempt is
stored under the assembled URL. -/
theorem c2_amended_no_read_write_only_on_success (net : Nat → AttemptResult)
    (url : String) (params : List (String × String)) (retries : Int)
    (proxy auth : Option (List (String × String)))
    (cache : List (String × String)) :
    (fazer_get net url params retries false proxy auth cache).cacheRead = false ∧
    ((fazer_get net url params retries false proxy auth cache).cache = cache ∨
      ∃ k body, net k = AttemptResult.success body ∧
        (fazer_get net url params retries false proxy auth cache).cache =
          dictInsert cache (assembled_url url params) (formatar_resposta body)) := by
  have hm := fazer_get_miss net url params retries false proxy auth cache (Or.inl rfl)
  refine ⟨hm.2.2.2.1, ?_⟩
  have hc := fazer_get_loop_cache net (assembled_url url params) retries cache 0
  rw [hm.1]
  exact hc

/-- C3 counterexample: the claim says an entry already in the cache
short-circuits a later call for the same URL regardless of the new call's
useCache flag, including useCache=false; but the check
`use_cache and url in cache` (line 35) only consults the cache when
`use_cache` is true, so with useCache=false a cached URL still goes to the
network: here the entry "CACHED" exists, yet the call returns the attempt's
error message and performs an attempt. -/
theorem c3_counterexample_no_cache_flag_skips_cached_entry :
    (fazer_get (fun _ => AttemptResult.failure (PyError.urlError "down")) "http://x" [] 1
        false none none [("http://x", "CACHED")]).retorno ≠ "CACHED" ∧
    (fazer_get (fun _ => AttemptResult.failure (PyError.urlError "down")) "http://x" [] 1
        false none none [("http://x", "CACHED")]).attempts ≠ 0 := by
  have hl := fazer_get_loop_all_fail
    (fun _ => AttemptResult.failure (PyError.urlError "down")) "http://x" 1
    [("http://x", "CACHED")] (fun _ => PyError.urlError "down") (fun k _ => rfl) 0
    (by omega) (by omega)
  have hm := fazer_get_miss (fun _ => AttemptResult.failure (PyError.urlError "down"))
    "http://x" [] 1 false none none [("http://x", "CACHED")] (Or.inl rfl)
  rw [show assembled_url "http://x" [] = "http://x" from rfl] at hm
  have hret := hm.2.2.2.2.2.1 (erro_msg (PyError.urlError "down")) (by rw [hl])
  constructor
  · rw [hret]; decide
  · rw [hm.2.1, hl]; decide

/-- C3 amended: a cached entry short-circuits a later call for the same
assembled URL only when that call passes useCache=true — then the cached
string is returned with no network attempt; when the call passes
useCache=false the cache is not read and, as soon as retries ≥ 1, at least
one network attempt is performed. -/
theorem c3_amended_cache_hit_requires_flag (net : Nat → AttemptResult) (url : String)
    (params : List (String × String)) (retries : Int)
    (proxy auth : Option (List (String × String)))
    (cache : List (String × String)) (v : String)
    (hv : dictGet cache (assembled_url url params) = some v)
    (hr : 1 ≤ retries) :
    (fazer_get net url params retries true proxy auth cache).retorno = v ∧
    (fazer_get net url params retries true proxy auth cache).attempts = 0 ∧
    (fazer_get net url params retries false proxy auth cache).cacheRead = false ∧
    1 ≤ (fazer_get net url params retries false proxy auth cache).attempts := by
  have hh := fazer_get_hit net url params retries proxy auth cache v hv
  have hm := fazer_get_miss net url params retries false proxy auth cache (Or.inl rfl)
  refine ⟨by rw [hh], by rw [hh], hm.2.2.2.1, ?_⟩
  rw [hm.2.1]
  exact fazer_get_loop_attempts_pos net (assembled_url url params) retries cache 0
    (by omega)

/-- Witness for C3: with the cache holding "CACHED" for the URL, retries = 1
and a failing transport, the useCache=true call returns "CACHED" with zero
attempts, while the useCache=false call does not read the cache and performs
an attempt. -/
theorem c3_amended_cache_hit_requires_flag_witness :
    (fazer_get (fun _ => AttemptResult.failure (PyError.urlError "down")) "http://x" [] 1
        true none none [("http://x", "CACHED")]).retorno = "CACHED" ∧
    (fazer_get (fun _ => AttemptResult.failure (PyError.urlError "down")) "http://x" [] 1
        true none none [("http://x", "CACHED")]).attempts = 0 ∧
    (fazer_get (fun _ => AttemptResult.failure (PyError.urlError "down")) "http://x" [] 1
        false none none [("http://x", "CACHED")]).cacheRead = false ∧
    1 ≤ (fazer_get (fun _ => AttemptResult.failure (PyError.urlError "down")) "http://x" [] 1
        false none none [("http://x", "CACHED")]).attempts :=
  c3_amended_cache_hit_requires_flag
    (fun _ => AttemptResult.failure (PyError.urlError "down")) "http://x" [] 1 none none
    [("http://x", "CACHED")] "CACHED" rfl (by omega)

/-- C4: a call with retries = n ≥ 1 that misses the cache and whose every
attempt fails performs exactly n attempts, sleeps 2 seconds between
consecutive attempts (2·(n−1) seconds in total), returns the final attempt's
formatted error string, and leaves the cache unchanged. -/
theorem c4_all_attempts_fail_exact_retries (net : Nat → AttemptResult) (url : String)
    (params : List (String × String)) (retries : Int) (use_cache : Bool)
    (proxy auth : Option (List (String × String)))
    (cache : List (String × String)) (errs : Nat → PyError)
    (hr : 1 ≤ retries)
    (hmiss : use_cache = false ∨ dictGet cache (assembled_url url params) = none)
    (hf : ∀ k, k < retries.toNat → net k = AttemptResult.failure (errs k)) :
    (fazer_get net url params retries use_cache proxy auth cache).attempts = retries.toNat ∧
    (fazer_get net url params retries use_cache proxy auth cache).sleepSeconds =
      2 * (retries.toNat - 1) ∧
    (fazer_get net url params retries use_cache proxy auth cache).cache = cache ∧
    (fazer_get net url params retries use_cache proxy auth cache).retorno =
      erro_msg (errs (retries.toNat - 1)) := by
  have hl := fazer_get_loop_all_fail net (assembled_url url params) retries cache errs hf
    0 (by omega) (by omega)
  have hm := fazer_get_miss net url params retries use_cache proxy auth cache hmiss
  have hidx : (retries - 1).toNat = retries.toNat - 1 := by omega
  rw [hidx] at hl
  refine ⟨?_, ?_, ?_, ?_⟩
  · rw [hm.2.1, hl]; dsimp only; omega
  · rw [hm.2.2.1, hl]; dsimp only; omega
  · rw [hm.1, hl]
  · exact hm.2.2.2.2.2.1 _ (by rw [hl])

/-- Witness for C4: retries = 2 with every attempt refusing the connection
gives 2 attempts, one 2-second sleep, an unchanged empty cache and the final
error string. -/
theorem c4_all_attempts_fail_exact_retries_witness :
    (fazer_get (fun _ => AttemptResult.failure (PyError.urlError "refused")) "http://x" [] 2
        false none none []).attempts = 2 ∧
    (fazer_get (fun _ => AttemptResult.failure (PyError.urlError "refused")) "http://x" [] 2
        false none none []).sleepSeconds = 2 ∧
    (fazer_get (fun _ => AttemptResult.failure (PyError.urlError "refused")) "http://x" [] 2
        false none none []).cache = [] ∧
    (fazer_get (fun _ => AttemptResult.failure (PyError.urlError "refused")) "http://x" [] 2
        false none none []).retorno = "Erro: refused" :=
  c4_all_attempts_fail_exact_retries
    (fun _ => AttemptResult.failure (PyError.urlError "refused")) "http://x" [] 2 false
    none none [] (fun _ => PyError.urlError "refused") (by omega) (Or.inl rfl)
    (fun k _ => rfl)

/-- C5: with retries ≥ 1 and no cache hit, the function returns from inside
the retry loop; the defensive post-loop fallback is never the returned
value under this precondition. -/
theorem c5_fallback_unreachable (net : Nat → AttemptResult) (url : String)
    (params : List (String × String)) (retries : Int) (use_cache : Bool)
    (proxy auth : Option (List (String × String)))
    (cache : List (String × String))
    (hr : 1 ≤ retries)
    (hmiss : use_cache = false ∨ dictGet cache (assembled_url url params) = none) :
    (fazer_get net url params retries use_cache proxy auth cache).fromFallback = false := by
  have hm := fazer_get_miss net url params retries use_cache proxy auth cache hmiss
  exact hm.2.2.2.2.1.mpr
    (fazer_get_loop_isSome net (assembled_url url params) retries cache 0 (by omega))

/-- Witness for C5: a failing call with retries = 1 and an empty cache
returns from inside the loop. -/
theorem c5_fallback_unreachable_witness :
    (fazer_get (fun _ => AttemptResult.failure (PyError.urlError "down")) "http://x" [] 1
        true none none []).fromFallback = false :=
  c5_fallback_unreachable (fun _ => AttemptResult.failure (PyError.urlError "down"))
    "http://x" [] 1 true none none [] (by omega) (Or.inr rfl)

/-- C6: with useCache=true and the assembled URL present in the cache, the
cached string is returned unchanged and immediately: no network attempt, no
sleeping, no auth or proxy processing, cache untouched, and the value is
identical to the stored entry. -/
theorem c6_cache_hit_short_circuits (net : Nat → AttemptResult) (url : String)
    (params : List (String × String)) (retries : Int)
    (proxy auth : Option (List (String × String)))
    (cache : List (String × String)) (v : String)
    (hv : dictGet cache (assembled_url url params) = some v) :
    (fazer_get net url params retries true proxy auth cache).retorno = v ∧
    (fazer_get net url params retries true proxy auth cache).attempts = 0 ∧
    (fazer_get net url params retries true proxy auth cache).sleepSeconds = 0 ∧
    (fazer_get net url params retries true proxy auth cache).authProcessed = false ∧
    (fazer_get net url params retries true proxy auth cache).proxyProcessed = false ∧
    (fazer_get net url params retries true proxy auth cache).cache = cache ∧
    (fazer_get net url params retries true proxy auth cache).fromFallback = false := by
  have hh := fazer_get_hit net url params retries proxy auth cache v hv
  rw [hh]
  exact ⟨rfl, rfl, rfl, rfl, rfl, rfl, rfl⟩

/-- Witness for C6: a cached URL with auth and proxy supplied still returns
the cached string with no attempt and no auth/proxy processing. -/
theorem c6_cache_hit_short_circuits_witness :
    (fazer_get (fun _ => AttemptResult.success "fresh") "http://x" [] 3 true
        (some [("http", "http://proxy")]) (some [("token", "abc")])
        [("http://x", "CACHED")]).retorno = "CACHED" ∧
    (fazer_get (fun _ => AttemptResult.success "fresh") "http://x" [] 3 true
        (some [("http", "http://proxy")]) (some [("token", "abc")])
        [("http://x", "CACHED")]).attempts = 0 ∧
    (fazer_get (fun _ => AttemptResult.success "fresh") "http://x" [] 3 true
        (some [("http", "http://proxy")]) (some [("token", "abc")])
        [("http://x", "CACHED")]).sleepSeconds = 0 ∧
    (fazer_get (fun _ => AttemptResult.success "fresh") "http://x" [] 3 true
        (some [("http", "http://proxy")]) (some [("token", "abc")])
        [("http://x", "CACHED")]).authProcessed = false ∧
    (fazer_get (fun _ => AttemptResult.success "fresh") "http://x" [] 3 true
        (some [("http", "http://proxy")]) (some [("token", "abc")])
        [("http://x", "CACHED")]).proxyProcessed = false ∧
    (fazer_get (fun _ => AttemptResult.success "fresh") "http://x" [] 3 true
        (some [("http", "http://proxy")]) (some [("token", "abc")])
        [("http://x", "CACHED")]).cache = [("http://x", "CACHED")] ∧
    (fazer_get (fun _ => AttemptResult.success "fresh") "http://x" [] 3 true
        (some [("http", "http://proxy")]) (some [("token", "abc")])
        [("http://x", "CACHED")]).fromFallback = false :=
  c6_cache_hit_short_circuits (fun _ => AttemptResult.success "fresh") "http://x" [] 3
    (some [("http", "http://proxy")]) (some [("token", "abc")])
    [("http://x", "CACHED")] "CACHED" rfl

/-- C10: with retries ≤ 0 and no cache hit, the loop body never runs: zero
attempts, no sleeping, cache unchanged, and the returned value is the
post-loop fallback string. -/
theorem c10_nonpositive_retries_fallback (net : Nat → AttemptResult) (url : String)
    (params : List (String × String)) (retries : Int) (use_cache : Bool)
    (proxy auth : Option (List (String × String)))
    (cache : List (String × String))
    (hr : retries ≤ 0)
    (hmiss : use_cache = false ∨ dictGet cache (assembled_url url params) = none) :
    (fazer_get net url params retries use_cache proxy auth cache).attempts = 0 ∧
    (fazer_get net url params retries use_cache proxy auth cache).sleepSeconds = 0 ∧
    (fazer_get net url params retries use_cache proxy auth cache).cache = cache ∧
    (fazer_get net url params retries use_cache proxy auth cache).retorno =
      "Erro: Número máximo de tentativas atingido." ∧
    (fazer_get net url params retries use_cache proxy auth cache).fromFallback = true := by
  have hl := fazer_get_loop_not_entered net (assembled_url url params) retries cache 0
    (by omega)
  have hm := fazer_get_miss net url params retries use_cache proxy auth cache hmiss
  refine ⟨?_, ?_, ?_, ?_, ?_⟩
  · rw [hm.2.1, hl]
  · rw [hm.2.2.1, hl]
  · rw [hm.1, hl]
  · exact hm.2.2.2.2.2.2 (by rw [hl])
  · have h5 := hm.2.2.2.2.1
    by_contra hc
    rw [Bool.not_eq_true] at hc
    have := h5.mp hc
    rw [hl] at this
    simp at this

/-- Witness for C10: retries = 0 with a would-succeed transport still makes
no attempt and returns the fallback string. -/
theorem c10_nonpositive_retries_fallback_witness :
    (fazer_get (fun _ => AttemptResult.success "body") "http://x" [] 0
        false none none []).attempts = 0 ∧
    (fazer_get (fun _ => AttemptResult.success "body") "http://x" [] 0
        false none none []).sleepSeconds = 0 ∧
    (fazer_get (fun _ => AttemptResult.success "body") "http://x" [] 0
        false none none []).cache = [] ∧
    (fazer_get (fun _ => AttemptResult.success "body") "http://x" [] 0
        false none none []).retorno = "Erro: Número máximo de tentativas atingido." ∧
    (fazer_get (fun _ => AttemptResult.success "body") "http://x" [] 0
        false none none []).fromFallback = true :=
  c10_nonpositive_retries_fallback (fun _ => AttemptResult.success "body") "http://x" [] 0
    false none none [] (by omega) (Or.inl rfl)

/-- C7: the auth header builder returns Bearer when a token key is present
(taking precedence), else Basic base64(username:password) when both are
present, else the empty mapping; in particular a token "abc" yields exactly
"Bearer abc" and username "u" / password "p" yields exactly
"Basic base64(u:p)", whose value is "Basic dTpw". -/
theorem c7_auth_header_shapes (auth : List (String × String)) :
    (∀ t, dictGet auth "token" = some t →
      adicionar_autenticacao auth = [("Authorization", "Bearer " ++ t)]) ∧
    (∀ u p, dictGet auth "token" = none → dictGet auth "username" = some u →
      dictGet auth "password" = some p →
      adicionar_autenticacao auth =
        [("Authorization", "Basic " ++ b64encode (utf8 (u ++ ":" ++ p)))]) ∧
    (dictGet auth "token" = none →
      (dictGet auth "username" = none ∨ dictGet auth "password" = none) →
      adicionar_autenticacao auth = []) ∧
    adicionar_autenticacao [("token", "abc")] = [("Authorization", "Bearer abc")] ∧
    adicionar_autenticacao [("username", "u"), ("password", "p")] =
      [("Authorization", "Basic " ++ b64encode (utf8 "u:p"))] ∧
    b64encode (utf8 "u:p") = "dTpw" := by
  refine ⟨?_, ?_, ?_, ?_, ?_, ?_⟩
  · intro t ht
    simp [adicionar_autenticacao, ht]
  · intro u p ht hu hp
    simp [adicionar_autenticacao, ht, hu, hp]
  · intro ht hup
    rcases hup with h | h
    · simp [adicionar_autenticacao, ht, h]
    · cases hu : dictGet auth "username" <;> simp [adicionar_autenticacao, ht, hu, h]
  · decide
  · decide
  · decide

/-- Witness for C7: for auth = a token dict, the produced header is exactly
Bearer of the token. -/
theorem c7_auth_header_shapes_witness :
    adicionar_autenticacao [("token", "abc")] = [("Authorization", "Bearer abc")] :=
  (c7_auth_header_shapes [("token", "abc")]).1 "abc" rfl

/-- C8: with a non-empty params mapping the assembled URL is
url + "?" + urlencode(params) when the URL has no "?", and
url + "&" + urlencode(params) when it already has one; an empty params
mapping returns the URL unchanged. Two concrete instances included. -/
theorem c8_url_assembly (url : String) (params : List (String × String)) :
    (params ≠ [] → containsQM url = false →
      montar_url_com_params url params = url ++ "?" ++ urlencode params) ∧
    (params ≠ [] → containsQM url = true →
      montar_url_com_params url params = url ++ "&" ++ urlencode params) ∧
    montar_url_com_params url [] = url ∧
    montar_url_com_params "http://x" [("a", "b c")] = "http://x?a=b+c" ∧
    montar_url_com_params "http://x?q=1" [("a", "b")] = "http://x?q=1&a=b" := by
  refine ⟨?_, ?_, ?_, ?_, ?_⟩
  · intro hp hq
    simp [montar_url_com_params, hp, hq]
  · intro hp hq
    simp [montar_url_com_params, hp, hq]
  · simp [montar_url_com_params]
  · decide
  · decide

/-- Witness for C8: the no-question-mark branch at a concrete input. -/
theorem c8_url_assembly_witness :
    montar_url_com_params "http://x" [("a", "b c")] =
      "http://x" ++ "?" ++ urlencode [("a", "b c")] :=
  (c8_url_assembly "http://x" [("a", "b c")]).1 (by decide) (by decide)

/-- C9: when the body parses as JSON, the formatter returns its
re-serialization with 4-space indentation and non-ASCII characters kept
literally; when parsing fails it returns the body unchanged. In particular
a one-key object re-serializes with the 4-space indent, a non-JSON body is
returned as is, an accented character stays unescaped, and floating-point
literals re-serialize through Python binary64 semantics: "1.50" becomes
"1.5" and "1e3" becomes "1000.0". -/
theorem c9_formatar_resposta (s : String) :
    (∀ j, json_loads s = some j → formatar_resposta s = json_dumps j) ∧
    (json_loads s = none → formatar_resposta s = s) ∧
    formatar_resposta "\x7b\"a\":1\x7d" = "\x7b\n    \"a\": 1\n\x7d" ∧
    formatar_resposta "not json" = "not json" ∧
    formatar_resposta "\x7b\"nome\":\"José\"\x7d" = "\x7b\n    \"nome\": \"José\"\n\x7d" ∧
    formatar_resposta "1.50" = "1.5" ∧
    formatar_resposta "1e3" = "1000.0" := by
  refine ⟨?_, ?_, ?_, ?_, ?_, ?_, ?_⟩
  · intro j hj
    simp [formatar_resposta, hj]
  · intro hj
    simp [formatar_resposta, hj]
  · have hp : json_loads "\x7b\"a\":1\x7d" = some (Json.obj [("a", Json.int 1)]) := rfl
    simp only [formatar_resposta, hp]
    simp only [json_dumps, dumpsVal, dumpsObj, dumpStr, dumpEscChar, indentAt]
    rfl
  · rfl
  · have hp : json_loads "\x7b\"nome\":\"José\"\x7d" =
        some (Json.obj [("nome", Json.str "José")]) := rfl
    simp only [formatar_resposta, hp]
    simp only [json_dumps, dumpsVal, dumpsObj, dumpStr, dumpEscChar, indentAt]
    rfl
  · have hp : json_loads "1.50" = some (Json.float false 6755399441055744 (-52)) := rfl
    simp only [formatar_resposta, hp]
    simp only [json_dumps, dumpsVal]
    rfl
  · have hp : json_loads "1e3" = some (Json.float false 8796093022208000 (-43)) := rfl
    simp only [formatar_resposta, hp]
    simp only [json_dumps, dumpsVal]
    rfl

/-- Witness for C9: the parse-success branch applied at the concrete
one-key object. -/
theorem c9_formatar_resposta_witness :
    formatar_resposta "\x7b\"a\":1\x7d" = json_dumps (Json.obj [("a", Json.int 1)]) :=
  (c9_formatar_resposta "\x7b\"a\":1\x7d").1 (Json.obj [("a", Json.int 1)]) rfl
